import Mathlib

/-!
Verification of the authentication/session-validation core and selected
request handlers of the FastAPI product-management service, as a shallow
embedding in Lean 4.

The embedding follows the Python source:
  * `app/dependencies.py` — the Identity Resolver (`get_current_user`) and the
    Access Guard (`get_current_active_user`), and the process-wide
    `active_tokens` set (the Active Token Registry);
  * `app/main.py` — the boundary exception handling
    (`global_exception_handler`);
  * `app/routers/users.py` — `create_user`;
  * `app/routers/products.py` — `update_product` and the product delete
    handler (named `delete_category` in the source).
Functions from `app/utils/security.py` (token decode, digest and
comparison) are not in the excerpt; where their behaviour is needed they
are either abstract parameters or modelled from the spec, as marked.

The relational store is modelled as in-memory lists of rows; a
`select(...).where(col == v)` followed by `scalar_one_or_none()` is the
first row satisfying the predicate (the columns queried this way —
usernames, role names, product ids — are unique in the store). Machine
representations are replaced by their mathematical carriers; `price` is a
Python float on which none of the embedded handlers computes, so any
carrier is faithful and `Int` is used.
-/

namespace App

/-- An HTTP error as raised by the handlers (`fastapi.HTTPException`):
status code, detail message and response headers. -/
structure HTTPException where
  status_code : Nat
  detail : String
  headers : List (String × String)
  deriving Repr, DecidableEq

/-- The `credentials_exception` built at the top of `get_current_user`
(app/dependencies.py): 401 with a `WWW-Authenticate: Bearer` header. -/
def credentials_exception : HTTPException :=
  { status_code := 401
    detail := "Could not validate credentials"
    headers := [("WWW-Authenticate", "Bearer")] }

/-- The exception raised by `get_current_active_user` for a disabled
account (app/dependencies.py): 400, "Inactive user", no extra headers. -/
def inactive_exception : HTTPException :=
  { status_code := 400
    detail := "Inactive user"
    headers := [] }

/-- A row of the relational `users` table (app/models/user.py, fields as
listed by the spec's data model and `UserResponse`). -/
structure User where
  id : String
  email : String
  username : String
  full_name : Option String
  hashed_password : String
  is_active : Bool
  role_id : String
  deriving Repr, DecidableEq

/-- A row of the `roles` table; only the fields `create_user` reads. -/
structure Role where
  id : String
  name : String
  deriving Repr, DecidableEq

/-- A row of the `products` table (fields of `ProductBase` plus
`created_by`). -/
structure Product where
  id : String
  name : String
  description : Option String
  price : Option Int
  stock : Option Int
  low_stock_threshold : Option Int
  image_url : Option String
  category_id : String
  created_by : String
  deriving Repr, DecidableEq

/-- The relational store: the tables the embedded handlers touch. -/
structure Db where
  users : List User
  roles : List Role
  products : List Product
  deriving Repr, DecidableEq

/-- Embedding of `get_current_user` (app/dependencies.py). The decoder
`decode_access_token` lives in app/utils/security.py, outside the excerpt,
and is an abstract parameter returning the subject (username) of a valid,
unexpired token and `none` otherwise. The body checks, in this order:
membership of the token in the Active Token Registry, decodability of the
token, and resolvability of the decoded username in the store; the first
failure raises `credentials_exception`. The registry — the Python set
`active_tokens`, modelled by the list of its elements — and the store are
returned alongside the result, mirroring that the body only reads them. -/
def get_current_user (decode_access_token : String → Option String)
    (active_tokens : List String) (db : Db) (token : String) :
    Except HTTPException User × List String × Db :=
  if token ∉ active_tokens then
    (Except.error credentials_exception, active_tokens, db)
  else
    match decode_access_token token with
    | none => (Except.error credentials_exception, active_tokens, db)
    | some username =>
      match db.users.find? (fun u => u.username == username) with
      | none => (Except.error credentials_exception, active_tokens, db)
      | some user => (Except.ok user, active_tokens, db)

/-- Embedding of `get_current_active_user` (app/dependencies.py): raises
400 "Inactive user" when the resolved user's `is_active` flag is false,
otherwise passes the user through unchanged. It receives only the user
resolved by `get_current_user`; no token information reaches it. -/
def get_current_active_user (current_user : User) : Except HTTPException User :=
  if !current_user.is_active then
    Except.error inactive_exception
  else
    Except.ok current_user

/-- Modelled from the spec: `register(token)` of the Active Token Registry
(§4.3). The registry is the process-wide Python set `active_tokens`
declared in app/dependencies.py; the operation inserting into it on login
lives in the auth router, outside the excerpt. The set is modelled by the
list of its elements, so set insertion is `List.insert` (a no-op when the
token is already present). -/
def register (t : String) (s : List String) : List String :=
  s.insert t

/-- Modelled from the spec: `is_active(token) -> bool` of the Active Token
Registry (§4.3): membership in the set `active_tokens`. -/
def is_active (t : String) (s : List String) : Bool :=
  decide (t ∈ s)

/-- Modelled from the spec: `revoke(token)` of the Active Token Registry
(§4.3, §6 Logout): removal from the set `active_tokens` — after it the
token is no member, so on the list model every occurrence is dropped. -/
def revoke (t : String) (s : List String) : List String :=
  s.filter (fun x => x ≠ t)

/-- The decoded payload of a bearer token: optional subject claim and
absolute expiry instant (seconds). -/
structure TokenPayload where
  sub : Option String
  exp : Nat
  deriving Repr, DecidableEq

/-- Modelled from the spec: `decode_access_token` of
app/utils/security.py, which is not in the excerpt (§4.2, §4.4 step 2-3).
`payloadOf` gives the payload of a structurally valid, correctly signed
token and `none` for a malformed or badly signed one. A token whose
embedded expiry is not in the future of `now` is rejected; otherwise the
subject claim is returned (absent subject yields `none`). -/
def decode_access_token_spec (now : Nat)
    (payloadOf : String → Option TokenPayload) (token : String) :
    Option String :=
  match payloadOf token with
  | none => none
  | some p => if p.exp ≤ now then none else p.sub

/-- Embedding of `global_exception_handler`'s response and of handler
responses generally (app/main.py): a status code and a JSON body of
key/value pairs. -/
structure JSONResponse where
  status_code : Nat
  content : List (String × String)
  deriving Repr, DecidableEq

/-- Embedding of `global_exception_handler` (app/main.py): any exception
reaching the application boundary is answered with status 500 and a body
holding the generic detail and the exception's text. -/
def global_exception_handler (exc : String) : JSONResponse :=
  { status_code := 500
    content := [("detail", "Internal server error"), ("error", exc)] }

/-- How a handler invocation ends: a normal response, a deliberately
raised `HTTPException`, or an unexpected internal fault (any other
exception), carrying the exception text. -/
inductive Outcome where
  | success (resp : JSONResponse)
  | httpError (e : HTTPException)
  | fault (exc : String)
  deriving Repr, DecidableEq

/-- The framework boundary of app/main.py: a raised `HTTPException` is
answered with its own status and detail; any other exception is passed
once — no retry — to `global_exception_handler`. -/
def respond : Outcome → JSONResponse
  | Outcome.success r => r
  | Outcome.httpError e =>
    { status_code := e.status_code, content := [("detail", e.detail)] }
  | Outcome.fault exc => global_exception_handler exc

/-- Modelled from the spec: the timing-safe comparison of the Credential
Verifier (§4.1, Glossary). Compares two byte/character sequences; returns
the outcome together with the number of per-position comparison steps
taken. Unlike a short-circuiting comparison it continues past the first
mismatch, so the step count never depends on where a mismatch occurs. -/
def compare_digest : List Char → List Char → Bool × Nat
  | [], [] => (true, 0)
  | [], _ :: _ => (false, 0)
  | _ :: _, [] => (false, 0)
  | x :: xs, y :: ys =>
    let r := compare_digest xs ys
    ((x == y) && r.1, r.2 + 1)

/-- Modelled from the spec: `verify(username, plaintext_password)` of the
Credential Verifier (§4.1), whose code (app/utils/security.py and the auth
router) is not in the excerpt. Looks the user up by username (`none` if
absent), computes the one-way digest of the plaintext with the abstract
`digest`, and compares it against the stored hash with the timing-safe
`compare_digest`; returns the user only on a match. Read-only. -/
def verify (digest : String → String) (db : Db)
    (username password : String) : Option User :=
  match db.users.find? (fun u => u.username == username) with
  | none => none
  | some user =>
    if (compare_digest (digest password).data user.hashed_password.data).1 then
      some user
    else
      none

/-- The request body of `POST /users` (`UserCreate` in
app/schemas/user.py): the fields of `UserBase` plus the password. The
schema carries a `role_id` field, which the handler never reads. -/
structure UserCreate where
  email : String
  username : String
  full_name : Option String
  role_id : Option String
  password : String
  deriving Repr, DecidableEq

/-- Embedding of `create_user` (app/routers/users.py). `get_password_hash`
(app/utils/security.py, outside the excerpt) is an abstract parameter, as
is `newId`, the primary key the store assigns to the inserted row. Steps,
as in the source: reject with 400 when a user with the same email or
username exists; hash the password; look up the role named "admin" and
reject with 400 when absent; otherwise insert the new user with
`role_id := admin_role.id` and return it. The store after the call is
returned alongside the result; the error paths commit nothing. -/
def create_user (get_password_hash : String → String) (newId : String)
    (db : Db) (user_data : UserCreate) : Except HTTPException User × Db :=
  match db.users.find? (fun u =>
      u.email == user_data.email || u.username == user_data.username) with
  | some _ =>
    (Except.error
      { status_code := 400
        detail := "Email or username already registered"
        headers := [] }, db)
  | none =>
    let hashed_password := get_password_hash user_data.password
    match db.roles.find? (fun r => r.name == "admin") with
    | none =>
      (Except.error
        { status_code := 400
          detail := "Default role 'admin' not found"
          headers := [] }, db)
    | some admin_role =>
      let new_user : User :=
        { id := newId
          email := user_data.email
          username := user_data.username
          full_name := user_data.full_name
          hashed_password := hashed_password
          is_active := true
          role_id := admin_role.id }
      (Except.ok new_user, { db with users := db.users ++ [new_user] })

/-- The request body of `PUT /products/{id}` (`ProductUpdate` in
app/schemas/product.py). Every field is optional; the outer `Option` is
Pydantic's provided/unset distinction (`exclude_unset`), and for fields
that are nullable on the row the provided value is itself optional. -/
structure ProductUpdate where
  name : Option String
  description : Option (Option String)
  price : Option (Option Int)
  stock : Option (Option Int)
  low_stock_threshold : Option (Option Int)
  image_url : Option (Option String)
  category_id : Option String
  deriving Repr, DecidableEq

/-- The `product_data.dict(exclude_unset=True)` loop of `update_product`:
each provided field overwrites the row's field; unset fields are left
alone. -/
def apply_update (p : Product) (u : ProductUpdate) : Product :=
  { p with
    name := u.name.getD p.name
    description := u.description.getD p.description
    price := u.price.getD p.price
    stock := u.stock.getD p.stock
    low_stock_threshold := u.low_stock_threshold.getD p.low_stock_threshold
    image_url := u.image_url.getD p.image_url
    category_id := u.category_id.getD p.category_id }

/-- Embedding of `update_product` (app/routers/products.py): fetch the
product by id (404 when absent), apply the provided fields, commit. The
authenticated `current_user` is a parameter of the handler but its body
never reads it — the ownership check present in the source is commented
out. Product ids are unique, so committing the mutated row is replacing
the row with that id. -/
def update_product (db : Db) (product_id : String)
    (product_data : ProductUpdate) (current_user : User) :
    Except HTTPException Product × Db :=
  match db.products.find? (fun p => p.id == product_id) with
  | none =>
    (Except.error
      { status_code := 404, detail := "Product not found", headers := [] }, db)
  | some product =>
    let updated := apply_update product product_data
    (Except.ok updated,
      { db with products :=
          db.products.map (fun q => if q.id == product_id then updated else q) })

/-- Embedding of the product delete handler (app/routers/products.py),
named `delete_category` in the source: fetch the product by id (404 when
absent), delete it, commit. As in `update_product`, the handler body never
reads `current_user`; the ownership check is commented out. -/
def delete_category (db : Db) (product_id : String) (current_user : User) :
    Except HTTPException Unit × Db :=
  match db.products.find? (fun p => p.id == product_id) with
  | none =>
    (Except.error
      { status_code := 404, detail := "Product not found", headers := [] }, db)
  | some product =>
    (Except.ok (), { db with products := db.products.erase product })

/-! ## Theorems -/

/-- Every error `get_current_user` can produce is the single
`credentials_exception`, whichever internal check failed. -/
theorem get_current_user_error_eq (dec : String → Option String)
    (reg : List String) (db : Db) (t : String) (e : HTTPException)
    (h : (get_current_user dec reg db t).1 = Except.error e) :
    e = credentials_exception := by
  unfold get_current_user at h
  by_cases hreg : t ∈ reg
  · cases hdec : dec t with
    | none =>
      simp only [hreg, not_true_eq_false, if_false, hdec] at h
      exact ((Except.error.injEq _ _).mp h).symm
    | some s =>
      cases hfind : db.users.find? (fun u => u.username == s) with
      | none =>
        simp only [hreg, not_true_eq_false, if_false, hdec, hfind] at h
        exact ((Except.error.injEq _ _).mp h).symm
      | some u =>
        simp [hreg, hdec, hfind] at h
  · simp only [hreg, not_false_eq_true, if_true] at h
    exact ((Except.error.injEq _ _).mp h).symm

/-- Claim C2: the Access Guard `get_current_active_user` fails with the
400 "Inactive user" exception exactly when the resolved user's
`is_active` flag is false, and returns the user unchanged otherwise. The
guard receives only the user resolved upstream — no token reaches it — so
the outcome is independent of token validity by its very signature. -/
theorem access_guard_inactive_iff (u : User) :
    (get_current_active_user u = Except.error inactive_exception ↔
      u.is_active = false) ∧
    (u.is_active = true → get_current_active_user u = Except.ok u) := by
  unfold get_current_active_user
  cases h : u.is_active <;> simp

/-- Claim C5: on the registry set, `is_active t` holds immediately after
`register t` and fails immediately after `revoke t`, from any starting
state. -/
theorem register_revoke_membership (t : String) (s : List String) :
    is_active t (register t s) = true ∧ is_active t (revoke t s) = false := by
  constructor
  · simp [is_active, register, List.mem_insert_iff]
  · simp [is_active, revoke, List.mem_filter]

/-- Claim C6: identity resolution is read-only — `get_current_user`
returns the Active Token Registry and the user store exactly as it
received them, on success and on every failure path alike. -/
theorem get_current_user_readonly (dec : String → Option String)
    (reg : List String) (db : Db) (t : String) :
    (get_current_user dec reg db t).2 = (reg, db) := by
  unfold get_current_user
  by_cases hreg : t ∈ reg
  · cases hdec : dec t with
    | none => simp [hreg]
    | some s =>
      cases hfind : db.users.find? (fun u => u.username == s) with
      | none => simp [hreg, hdec, hfind]
      | some u => simp [hreg, hdec, hfind]
  · simp [hreg]

/-- Claim C8: an unexpected internal fault reaching the boundary is
answered by exactly one invocation of `global_exception_handler`, whose
response carries status 500 — a generic server fault, never the 401
unauthorized status. -/
theorem fault_yields_500 (exc : String) :
    respond (Outcome.fault exc) = global_exception_handler exc ∧
    (respond (Outcome.fault exc)).status_code = 500 ∧
    (respond (Outcome.fault exc)).status_code ≠ 401 := by
  refine ⟨rfl, rfl, ?_⟩
  simp [respond, global_exception_handler]

/-- Claim C1: the Identity Resolver returns a user only when the token is
in the Active Token Registry, decodes to a subject, and that subject
resolves to a stored user; any failure — checked in that order, the first
one short-circuiting (in particular, a token outside the registry is
rejected no matter how it decodes) — raises the single 401
`credentials_exception`. -/
theorem identity_resolver_checks (dec : String → Option String)
    (reg : List String) (db : Db) (t : String) :
    (∀ user, (get_current_user dec reg db t).1 = Except.ok user →
      t ∈ reg ∧ ∃ s, dec t = some s ∧
        db.users.find? (fun u => u.username == s) = some user) ∧
    (t ∉ reg →
      (get_current_user dec reg db t).1 = Except.error credentials_exception) ∧
    (dec t = none →
      (get_current_user dec reg db t).1 = Except.error credentials_exception) ∧
    (∀ s, dec t = some s → db.users.find? (fun u => u.username == s) = none →
      (get_current_user dec reg db t).1 = Except.error credentials_exception) := by
  refine ⟨?_, ?_, ?_, ?_⟩
  · intro user h
    by_cases hreg : t ∈ reg
    · refine ⟨hreg, ?_⟩
      cases hdec : dec t with
      | none => simp [get_current_user, hreg, hdec] at h
      | some s =>
        cases hfind : db.users.find? (fun u => u.username == s) with
        | none => simp [get_current_user, hreg, hdec, hfind] at h
        | some u =>
          have hu : u = user := by
            simpa [get_current_user, hreg, hdec, hfind] using h
          refine ⟨s, rfl, ?_⟩
          rw [hfind, hu]
    · simp [get_current_user, hreg] at h
  · intro h
    simp [get_current_user, h]
  · intro h
    by_cases hreg : t ∈ reg <;> simp [get_current_user, h, hreg]
  · intro s hdec hfind
    by_cases hreg : t ∈ reg <;> simp [get_current_user, hreg, hdec, hfind]

/-- Claim C3: two resolutions that fail — at whichever internal check —
surface the identical error: the same exception, with status 401 and the
`WWW-Authenticate: Bearer` header, so a caller cannot tell which check
failed. -/
theorem unauthorized_uniform (dec1 dec2 : String → Option String)
    (reg1 reg2 : List String) (db1 db2 : Db) (t1 t2 : String)
    (e1 e2 : HTTPException)
    (h1 : (get_current_user dec1 reg1 db1 t1).1 = Except.error e1)
    (h2 : (get_current_user dec2 reg2 db2 t2).1 = Except.error e2) :
    e1 = e2 ∧ e1.status_code = 401 ∧
    ("WWW-Authenticate", "Bearer") ∈ e1.headers := by
  have he1 := get_current_user_error_eq dec1 reg1 db1 t1 e1 h1
  have he2 := get_current_user_error_eq dec2 reg2 db2 t2 e2 h2
  subst he1; subst he2
  exact ⟨rfl, rfl, by simp [credentials_exception]⟩

/-- Witness for C3 at concrete inputs: one token fails the registry check
(empty registry), the other fails the user lookup (registered token whose
subject matches no stored user); the surfaced errors coincide. -/
theorem unauthorized_uniform_concrete :
    credentials_exception = credentials_exception ∧
    credentials_exception.status_code = 401 ∧
    ("WWW-Authenticate", "Bearer") ∈ credentials_exception.headers :=
  unauthorized_uniform (fun _ => none) (fun _ => some "bob") [] ["b"]
    ⟨[], [], []⟩ ⟨[], [], []⟩ "a" "b" credentials_exception credentials_exception
    (by simp [get_current_user]) (by simp [get_current_user])

/-- Claim C4: a token whose embedded expiry has passed is rejected with
the 401 `credentials_exception` even while it is still registered: the
registry never auto-expires entries, and the decode step alone enforces
expiry, so an expired token is never honored. -/
theorem expired_token_rejected (now : Nat)
    (payloadOf : String → Option TokenPayload) (reg : List String) (db : Db)
    (t : String) (p : TokenPayload)
    (hreg : t ∈ reg) (hp : payloadOf t = some p) (hexp : p.exp ≤ now) :
    (get_current_user (decode_access_token_spec now payloadOf) reg db t).1
      = Except.error credentials_exception := by
  have hdec : decode_access_token_spec now payloadOf t = none := by
    simp [decode_access_token_spec, hp, hexp]
  simp [get_current_user, hreg, hdec]

/-- Witness for C4 at a concrete input: a registered token with subject
"alice" and expiry 5, resolved at time 10, is rejected. -/
theorem expired_token_rejected_concrete :
    (get_current_user
      (decode_access_token_spec 10 (fun _ => some ⟨some "alice", 5⟩))
      ["tok"] ⟨[], [], []⟩ "tok").1 = Except.error credentials_exception :=
  expired_token_rejected 10 (fun _ => some ⟨some "alice", 5⟩) ["tok"]
    ⟨[], [], []⟩ "tok" ⟨some "alice", 5⟩ (by simp) rfl (by simp)

/-- The timing-safe comparison accepts exactly equal sequences. -/
theorem compare_digest_eq_true_iff (a b : List Char) :
    (compare_digest a b).1 = true ↔ a = b := by
  induction a generalizing b with
  | nil => cases b <;> simp [compare_digest]
  | cons x xs ih =>
    cases b with
    | nil => simp [compare_digest]
    | cons y ys => simp [compare_digest, ih]

/-- The timing-safe comparison takes one step per position of the shorter
sequence: its cost is a function of the lengths alone. -/
theorem compare_digest_steps (a b : List Char) :
    (compare_digest a b).2 = min a.length b.length := by
  induction a generalizing b with
  | nil => cases b <;> simp [compare_digest]
  | cons x xs ih =>
    cases b with
    | nil => simp [compare_digest]
    | cons y ys => simp [compare_digest, ih, Nat.succ_min_succ]

/-- `verify` returns a user only when the digest of the presented
password is exactly the stored hash. -/
theorem verify_sound (digest : String → String) (db : Db)
    (username password : String) (user : User)
    (h : verify digest db username password = some user) :
    digest password = user.hashed_password := by
  unfold verify at h
  cases hfind : db.users.find? (fun u => u.username == username) with
  | none => rw [hfind] at h; exact absurd h (by simp)
  | some u =>
    rw [hfind] at h
    by_cases hc :
        (compare_digest (digest password).data u.hashed_password.data).1 = true
    · have hu : u = user := by simpa [hc] using h
      have hd := (compare_digest_eq_true_iff _ _).mp hc
      subst hu
      exact String.ext hd
    · simp [hc] at h

/-- Claim C7: the Credential Verifier never returns a user when the
password's digest differs from the stored hash, and the timing-safe
comparison's step count — the model of its running time — depends only on
the lengths of the compared sequences, never on the position of the first
mismatching byte. -/
theorem verify_never_wrong_and_timing_safe :
    (∀ (digest : String → String) (db : Db) (username password : String)
        (user : User), verify digest db username password = some user →
      digest password = user.hashed_password) ∧
    (∀ a b : List Char, (compare_digest a b).2 = min a.length b.length) ∧
    (∀ a b c d : List Char, a.length = c.length → b.length = d.length →
      (compare_digest a b).2 = (compare_digest c d).2) := by
  refine ⟨verify_sound, compare_digest_steps, ?_⟩
  intro a b c d h1 h2
  rw [compare_digest_steps, compare_digest_steps, h1, h2]

/-- Claim C9: every user `create_user` inserts carries the id of the role
named "admin" as its `role_id`, whatever role the request asked for (the
handler never reads the request's `role_id`); and when no role named
"admin" exists the call fails with a 400 and commits nothing. -/
theorem create_user_admin_role (hash : String → String) (newId : String)
    (db : Db) (user_data : UserCreate) :
    (∀ u db2, create_user hash newId db user_data = (Except.ok u, db2) →
      ∃ r, db.roles.find? (fun x => x.name == "admin") = some r ∧
        u.role_id = r.id) ∧
    (∀ rid1 rid2,
      create_user hash newId db { user_data with role_id := rid1 } =
        create_user hash newId db { user_data with role_id := rid2 }) ∧
    (db.roles.find? (fun x => x.name == "admin") = none →
      ∃ e, (create_user hash newId db user_data).1 = Except.error e ∧
        e.status_code = 400 ∧ (create_user hash newId db user_data).2 = db) := by
  refine ⟨?_, ?_, ?_⟩
  · intro u db2 h
    unfold create_user at h
    cases hconf : db.users.find? (fun x =>
        x.email == user_data.email || x.username == user_data.username) with
    | some w => rw [hconf] at h; simp at h
    | none =>
      rw [hconf] at h
      cases hrole : db.roles.find? (fun x => x.name == "admin") with
      | none => rw [hrole] at h; simp at h
      | some r =>
        rw [hrole] at h
        refine ⟨r, rfl, ?_⟩
        have hu := ((Prod.mk.injEq _ _ _ _).mp h).1
        have hv := (Except.ok.injEq _ _).mp hu
        rw [← hv]
  · intro rid1 rid2
    rfl
  · intro hrole
    unfold create_user
    cases hconf : db.users.find? (fun x =>
        x.email == user_data.email || x.username == user_data.username) with
    | some w => exact ⟨_, rfl, rfl, rfl⟩
    | none => rw [hrole]; exact ⟨_, rfl, rfl, rfl⟩

/-- Claim C10: neither `update_product` nor the product delete handler
reads the authenticated user — their outcome is the same for every
caller, owner or not — and on an existing product both succeed, the
active-user gate being the only restriction. -/
theorem product_mutation_no_ownership (db : Db) (product_id : String)
    (product_data : ProductUpdate) (u1 u2 : User) :
    update_product db product_id product_data u1 =
      update_product db product_id product_data u2 ∧
    delete_category db product_id u1 = delete_category db product_id u2 ∧
    (∀ p, db.products.find? (fun x => x.id == product_id) = some p →
      (∃ q, (update_product db product_id product_data u1).1 = Except.ok q) ∧
      (delete_category db product_id u1).1 = Except.ok ()) := by
  refine ⟨rfl, rfl, ?_⟩
  intro p hp
  constructor
  · exact ⟨apply_update p product_data, by simp [update_product, hp]⟩
  · simp [delete_category, hp]

end App
